import Mathlib

/-!
Verification development for the APOD dashboard (src/code.py).

The repository is a single Streamlit page.  The parts with a behavioural
contract are embedded here:

  fetch_apod        (code.py lines 26-43)  : request building and status
                                             classification,
  field extraction  (code.py lines 123-127, 147) : defaulting of absent
                                             JSON fields,
  validate_date     (code.py lines 45-70)  : regex + calendar + range check,
  st.cache_data     (code.py line 25)      : one-hour result cache,
  get_solar_system_plot (code.py lines 206-256) : the highlight computation.

Python exceptions are modelled with Except, the Streamlit warning channel
as an explicit list of emitted messages, and machine-free data (strings,
dictionaries with optional fields) as Lean structures with Option fields.
-/

/-- Model of a Python exception relevant to this program: dateutil raises
ValueError subclasses on unparseable input, and calling a method on None
raises AttributeError. -/
inductive PyErr where
  | valueError (msg : String)
  | attributeError (msg : String)
deriving DecidableEq

/-- Model of datetime.date: a year-month-day triple. -/
structure PyDate where
  year : Nat
  month : Nat
  day : Nat
deriving DecidableEq

/-- Numeric key giving the calendar order of dates; for real dates
(month at most 12, day at most 31) it agrees with lexicographic
year-month-day order, which is the order Python date objects use. -/
def PyDate.key (d : PyDate) : Nat := d.year * 10000 + d.month * 100 + d.day

/-- Embeds date(1995, 6, 16) from code.py line 59: the APOD start date. -/
def mission_start : PyDate := ⟨1995, 6, 16⟩

/-- Leap year rule of the proleptic Gregorian calendar used by datetime. -/
def isLeapYear (y : Nat) : Bool := (y % 4 = 0 && y % 100 ≠ 0) || y % 400 = 0

/-- Number of days of a month in the calendar used by datetime. -/
def daysInMonth (y m : Nat) : Nat :=
  if m = 2 then (if isLeapYear y then 29 else 28)
  else if m = 4 || m = 6 || m = 9 || m = 11 then 30
  else 31

/-- Validity of a year-month-day triple for datetime.date: datetime
supports years 1 through 9999. -/
def validDate (y m d : Nat) : Bool :=
  1 ≤ y && y ≤ 9999 && 1 ≤ m && m ≤ 12 && 1 ≤ d && d ≤ daysInMonth y m

/-- Codepoints of the zero digit of every run of Unicode decimal digits
(category Nd): the characters Python's regex class \d matches are exactly
these 66 runs of ten consecutive codepoints, each run going from the zero
of a script to its nine.  Enumerated from the Unicode data of CPython
3.11 by testing every codepoint against the pattern \d. -/
def pyDigitZeros : List Nat :=
  [48, 1632, 1776, 1984, 2406, 2534, 2662, 2790, 2918, 3046, 3174, 3302,
   3430, 3558, 3664, 3792, 3872, 4160, 4240, 6112, 6160, 6470, 6608, 6784,
   6800, 6992, 7088, 7232, 7248, 42528, 43216, 43264, 43472, 43504, 43600,
   44016, 65296, 66720, 68912, 69734, 69872, 69942, 70096, 70384, 70736,
   70864, 71248, 71360, 71472, 71904, 72016, 72784, 73040, 73120, 92768,
   92864, 93008, 120782, 120792, 120802, 120812, 120822, 123200, 123632,
   125264, 130032]

/-- Model of the Python regex class \d on one character: any Unicode
decimal digit, not only the ASCII digits. -/
def pyIsDigit (c : Char) : Bool :=
  pyDigitZeros.any (fun s => s ≤ c.toNat && c.toNat < s + 10)

/-- Decimal value of a Unicode digit character, the value Python's int()
gives it: its offset from the zero digit of its run. -/
def pyDigitVal (c : Char) : Nat :=
  match pyDigitZeros.find? (fun s => s ≤ c.toNat && c.toNat < s + 10) with
  | some s => c.toNat - s
  | none => 0

/-- Reads a character list of exactly the shape 4 digits, hyphen, 2 digits,
hyphen, 2 digits, returning the year, month and day numbers; none on any
other list.  This is the literal YYYY-MM-DD shape of the regex on
code.py line 51, with digit meaning any Unicode decimal digit, which is
what \d matches in Python. -/
def strictShape? (cs : List Char) : Option (Nat × Nat × Nat) :=
  match cs with
  | [y1, y2, y3, y4, '-', m1, m2, '-', d1, d2] =>
    if pyIsDigit y1 && pyIsDigit y2 && pyIsDigit y3 && pyIsDigit y4 &&
       pyIsDigit m1 && pyIsDigit m2 && pyIsDigit d1 && pyIsDigit d2 then
      some (pyDigitVal y1 * 1000 + pyDigitVal y2 * 100 + pyDigitVal y3 * 10 + pyDigitVal y4,
            (pyDigitVal m1 * 10 + pyDigitVal m2, pyDigitVal d1 * 10 + pyDigitVal d2))
    else none
  | _ => none

/-- Embeds the Python test re.match(r"^\d\x7b4\x7d-\d\x7b2\x7d-\d\x7b2\x7d$", s)
of code.py line 51.  In Python, without re.MULTILINE, the dollar anchor
matches at the end of the string OR just before one newline at the end of
the string, so the regex also accepts the 10-character shape followed by a
single trailing newline. -/
def pyRegexMatch (s : String) : Bool :=
  (strictShape? s.data).isSome ||
  (match s.data with
   | [a, b, c, d, e, f, g, h, i, j, '\n'] =>
     (strictShape? [a, b, c, d, e, f, g, h, i, j]).isSome
   | _ => false)

/-- Strips leading and trailing whitespace from a character list, the way
the dateutil tokeniser skips whitespace around tokens. -/
def pyStrip (cs : List Char) : List Char :=
  ((cs.dropWhile Char.isWhitespace).reverse.dropWhile Char.isWhitespace).reverse

/-- Model of dateutil.parser.parse(s).date() (code.py line 56) on the
inputs reachable from validate_date, which are exactly the strings
accepted by the regex of line 51: the YYYY-MM-DD shape with any Unicode
decimal digits, optionally with one trailing newline.  dateutil tokenises
whitespace away and reads digit runs with int(), which values Unicode
digits by their decimal value, so the model strips the string, reads the
strict shape, and succeeds exactly when the resulting triple is a real
datetime date; the only exception dateutil raises on such input is a
ValueError (ParserError is a ValueError subclass).  This behaviour,
including fullwidth and other non-ASCII digit inputs, was checked against
dateutil 2.9.0.  On strings outside the reachable set the model
conservatively fails; validate_date never consults it there. -/
def dateutilParse (s : String) : Except PyErr PyDate :=
  match strictShape? (pyStrip s.data) with
  | some (y, m, d) =>
    if validDate y m d then Except.ok ⟨y, m, d⟩
    else Except.error (PyErr.valueError ("day is out of range for month"))
  | none => Except.error (PyErr.valueError ("Unknown string format"))

/-- Warning text of code.py line 60. -/
def warn_early : String := "APOD data is available only from June 16, 1995 onwards."

/-- Warning text of code.py line 65. -/
def warn_future : String := "Cannot fetch APOD for a future date."

/-- Embeds validate_date (code.py lines 45-70) as a total function.  The
input is Option String so that the Python call validate_date(None) is
representable; the current date, read by date.today() in the source, is an
explicit parameter; the st.warning calls of lines 60 and 65 are returned
as the list of emitted warning messages.  The try/except of lines 54-70
catches the ValueError of the parse and returns false. -/
def validate_date (date_text : Option String) (today : PyDate) : Bool × List String :=
  match date_text with
  | none => (true, [])
  | some s =>
    if s = "" then (true, [])
    else if pyRegexMatch s = false then (false, [])
    else
      match dateutilParse s with
      | Except.error _ => (false, [])
      | Except.ok d =>
        if d.key < mission_start.key then (false, [warn_early])
        else if today.key < d.key then (false, [warn_future])
        else (true, [])

/-- Embeds validate_date again, this time keeping the exception channel
visible: the try block of code.py lines 54-68 propagates any exception
that is not a ValueError, because the except clause of line 69 names only
ValueError. -/
def validate_dateE (date_text : Option String) (today : PyDate) :
    Except PyErr (Bool × List String) :=
  match date_text with
  | none => Except.ok (true, [])
  | some s =>
    if s = "" then Except.ok (true, [])
    else if pyRegexMatch s = false then Except.ok (false, [])
    else
      match dateutilParse s with
      | Except.error (PyErr.valueError _) => Except.ok (false, [])
      | Except.error e => Except.error e
      | Except.ok d =>
        if d.key < mission_start.key then Except.ok (false, [warn_early])
        else if today.key < d.key then Except.ok (false, [warn_future])
        else Except.ok (true, [])

/-- Embeds the raw JSON dictionary returned by the APOD endpoint
(response.json() on code.py line 36): the fields the program reads, each
possibly absent. -/
structure RawApod where
  title : Option String
  date : Option String
  explanation : Option String
  media_type : Option String
  url : Option String
  hdurl : Option String
deriving DecidableEq

/-- Embeds an HTTP response as the program observes it: the status code,
the body text, and the body parsed as JSON (the source calls
response.json() only on status 200 and assumes it parses). -/
structure HttpResponse where
  status_code : Nat
  text : String
  json : RawApod
deriving DecidableEq

/-- Classified fetch failures: the three raise sites of code.py
lines 37-43.  notFound carries the message of line 38, rateLimited the
message of line 40, upstreamError the status code and response body that
line 43 interpolates into its message. -/
inductive FetchError where
  | notFound : FetchError
  | rateLimited : FetchError
  | upstreamError (status : Nat) (body : String) : FetchError
deriving DecidableEq

/-- Embeds API_KEY of code.py line 23. -/
def API_KEY : String := "DEMO_KEY"

/-- Embeds API_URL of code.py line 20. -/
def API_URL : String := "https://api.nasa.gov/planetary/apod"

/-- Embeds the request-parameter construction of code.py lines 28-30:
params starts as the api_key alone and the date parameter is added only
when date_str is truthy (None and the empty string are falsy in Python). -/
def fetch_apod_params (date_str : Option String) : List (String × String) :=
  match date_str with
  | none => [("api_key", API_KEY)]
  | some s =>
    if s = "" then [("api_key", API_KEY)]
    else [("api_key", API_KEY), ("date", s)]

/-- Embeds the status classification of code.py lines 35-43: 200 returns
the parsed JSON, 404 raises the not-found message, 429 the rate-limit
message, anything else the message carrying the status code and body. -/
def handle_response (response : HttpResponse) : Except FetchError RawApod :=
  if response.status_code = 200 then Except.ok response.json
  else if response.status_code = 404 then Except.error FetchError.notFound
  else if response.status_code = 429 then Except.error FetchError.rateLimited
  else Except.error (FetchError.upstreamError response.status_code response.text)

/-- Embeds fetch_apod (code.py lines 26-43): build the parameters, issue
the GET (the network is the function argument server, mapping the query
parameters to the response received), classify the response. -/
def fetch_apod (date_str : Option String)
    (server : List (String × String) → HttpResponse) : Except FetchError RawApod :=
  handle_response (server (fetch_apod_params date_str))

/-- Embeds the structured record the page builds from the raw JSON. -/
structure ApodRecord where
  title : String
  date : String
  explanation : String
  media_type : String
  url : Option String
  hdurl : Option String
deriving DecidableEq

/-- Embeds the field extraction of code.py lines 123-127 and 147: each
data.get call with its literal default; url and hdurl have no default. -/
def extract_record (data : RawApod) : ApodRecord :=
  { title := data.title.getD ("Untitled APOD")
    date := data.date.getD ("Unknown Date")
    explanation := data.explanation.getD ("No detailed description provided for this picture.")
    media_type := data.media_type.getD ("image")
    url := data.url
    hdurl := data.hdurl }

/-- The fetch pipeline the spec calls fetch: fetch_apod followed by the
field extraction performed on its result. -/
def fetchRecord (date_str : Option String)
    (server : List (String × String) → HttpResponse) : Except FetchError ApodRecord :=
  (fetch_apod date_str server).map extract_record

/-- Cache lifetime of st.cache_data(ttl=3600) on code.py line 25, in
seconds. -/
def TTL : Nat := 3600

/-- A cache state: for each argument value, the time a result was stored
and the stored result, if any. -/
def CacheState : Type := Option String → Option (Nat × RawApod)

/-- Writes one entry of a cache state. -/
def cache_update (σ : CacheState) (k : Option String) (v : Nat × RawApod) : CacheState :=
  fun k2 => if k2 = k then some v else σ k2

/-- Model of the st.cache_data(ttl=3600) wrapper around fetch_apod
(code.py line 25): at call time t with argument k, a stored entry younger
than TTL seconds is returned unchanged; otherwise the underlying fetch
runs (oracle t k, abstracting the network response at time t) and its
result is stored with timestamp t. -/
def cached_fetch_apod (oracle : Nat → Option String → RawApod) (t : Nat)
    (k : Option String) (σ : CacheState) : RawApod × CacheState :=
  match σ k with
  | some (t0, v) =>
    if t < t0 + TTL then (v, σ)
    else (oracle t k, cache_update σ k (t, oracle t k))
  | none => (oracle t k, cache_update σ k (t, oracle t k))

/-- Embeds the Body column of code.py line 212. -/
def solar_bodies : List String :=
  ["Sun", "Mercury", "Venus", "Earth", "Mars", "Jupiter", "Saturn", "Uranus", "Neptune"]

/-- Embeds the Python expression apod_body.lower(): when apod_body is
None the attribute access .lower() raises an AttributeError, otherwise it
lowercases the string. -/
def py_lower (apod_body : Option String) : Except PyErr String :=
  match apod_body with
  | none => Except.error (PyErr.attributeError ("NoneType object has no attribute lower"))
  | some s => Except.ok s.toLower

/-- Embeds the Highlight column computation of code.py line 227:
for each body name x the lambda evaluates
x.lower() == apod_body.lower(). -/
def highlight_column (apod_body : Option String) : Except PyErr (List String) :=
  solar_bodies.mapM (fun x => do
    let a ← py_lower apod_body
    pure (if x.toLower = a then "APOD Focus" else "Solar System Body"))

/-- The observable content of the figure get_solar_system_plot builds:
the bodies plotted, the highlight classification of each, the title.
The numeric marker layout (floating-point cosines on code.py
lines 221-223) carries no contract and is not modelled. -/
structure SolarFigure where
  bodies : List String
  highlight : List String
  title : String
deriving DecidableEq

/-- Embeds get_solar_system_plot (code.py lines 206-256): the static body
table, then the Highlight column (the first fallible step), then the
figure. -/
def get_solar_system_plot (apod_body : Option String) :
    Except PyErr SolarFigure := do
  let h ← highlight_column apod_body
  pure { bodies := solar_bodies
         highlight := h
         title := "Simplified Solar System Plane (Not to Scale)" }

/-- A raw response with every field absent, used to instantiate theorems
at concrete inputs. -/
def rawNone : RawApod := ⟨none, none, none, none, none, none⟩

/-- C1: every HTTP response received by fetch is classified by status
code: 200 yields the parsed JSON as success, 404 fails with NotFound, 429
fails with RateLimited, and any other status fails with UpstreamError
carrying that status code and the response body. -/
theorem fetch_status_classification (date_str : Option String)
    (server : List (String × String) → HttpResponse) :
    ((server (fetch_apod_params date_str)).status_code = 200 →
      fetch_apod date_str server = Except.ok (server (fetch_apod_params date_str)).json) ∧
    ((server (fetch_apod_params date_str)).status_code = 404 →
      fetch_apod date_str server = Except.error FetchError.notFound) ∧
    ((server (fetch_apod_params date_str)).status_code = 429 →
      fetch_apod date_str server = Except.error FetchError.rateLimited) ∧
    ((server (fetch_apod_params date_str)).status_code ≠ 200 →
      (server (fetch_apod_params date_str)).status_code ≠ 404 →
      (server (fetch_apod_params date_str)).status_code ≠ 429 →
      fetch_apod date_str server =
        Except.error (FetchError.upstreamError
          (server (fetch_apod_params date_str)).status_code
          (server (fetch_apod_params date_str)).text)) := by
  refine ⟨fun h => ?_, fun h => ?_, fun h => ?_, fun h1 h2 h3 => ?_⟩
  · simp [fetch_apod, handle_response, h]
  · simp [fetch_apod, handle_response, h]
  · simp [fetch_apod, handle_response, h]
  · simp [fetch_apod, handle_response, h1, h2, h3]

/-- C1 witness: the classification evaluated at four concrete responses,
one per status class. -/
theorem fetch_status_classification_witness :
    fetch_apod none (fun _ => ⟨200, "", rawNone⟩) = Except.ok rawNone ∧
    fetch_apod none (fun _ => ⟨404, "nf", rawNone⟩) = Except.error FetchError.notFound ∧
    fetch_apod none (fun _ => ⟨429, "rl", rawNone⟩) = Except.error FetchError.rateLimited ∧
    fetch_apod none (fun _ => ⟨500, "boom", rawNone⟩) =
      Except.error (FetchError.upstreamError 500 "boom") :=
  ⟨(fetch_status_classification none _).1 rfl,
   (fetch_status_classification none _).2.1 rfl,
   (fetch_status_classification none _).2.2.1 rfl,
   (fetch_status_classification none _).2.2.2 (by decide) (by decide) (by decide)⟩

/-- C7: a fetch with absent date issues its request with the api_key as
the only parameter, and a fetch with date 2020-01-01 issues its request
with the date parameter attached. -/
theorem fetch_request_params :
    fetch_apod_params none = [("api_key", API_KEY)] ∧
    fetch_apod_params (some ("2020-01-01")) =
      [("api_key", API_KEY), ("date", "2020-01-01")] := by
  constructor
  · rfl
  · simp [fetch_apod_params]

/-- C2: on a successful fetch (status 200) the record produced by the
pipeline has absent fields defaulted: a missing title becomes
Untitled APOD, a missing explanation becomes the placeholder sentence,
and a missing media_type becomes image. -/
theorem fetch_defaults_absent_fields (date_str : Option String)
    (server : List (String × String) → HttpResponse)
    (h : (server (fetch_apod_params date_str)).status_code = 200) :
    fetchRecord date_str server =
      Except.ok (extract_record (server (fetch_apod_params date_str)).json) ∧
    ((server (fetch_apod_params date_str)).json.title = none →
      (extract_record (server (fetch_apod_params date_str)).json).title = "Untitled APOD") ∧
    ((server (fetch_apod_params date_str)).json.explanation = none →
      (extract_record (server (fetch_apod_params date_str)).json).explanation =
        "No detailed description provided for this picture.") ∧
    ((server (fetch_apod_params date_str)).json.media_type = none →
      (extract_record (server (fetch_apod_params date_str)).json).media_type = "image") := by
  refine ⟨?_, fun ht => ?_, fun he => ?_, fun hm => ?_⟩
  · simp [fetchRecord, fetch_apod, handle_response, h, Except.map]
  · simp [extract_record, ht]
  · simp [extract_record, he]
  · simp [extract_record, hm]

/-- C2 witness: a status-200 response whose JSON has every field absent
yields the fully defaulted record. -/
theorem fetch_defaults_absent_fields_witness :
    fetchRecord none (fun _ => ⟨200, "", rawNone⟩) = Except.ok (extract_record rawNone) ∧
    (rawNone.title = none → (extract_record rawNone).title = "Untitled APOD") ∧
    (rawNone.explanation = none → (extract_record rawNone).explanation =
      "No detailed description provided for this picture.") ∧
    (rawNone.media_type = none → (extract_record rawNone).media_type = "image") :=
  fetch_defaults_absent_fields none (fun _ => ⟨200, "", rawNone⟩) rfl

/-- C8: validate applied to the empty string returns true, and validate
applied to an absent input returns true. -/
theorem validate_empty_and_none (today : PyDate) :
    (validate_date (some ("")) today).1 = true ∧
    (validate_date none today).1 = true := by
  constructor
  · simp [validate_date]
  · rfl

/-- C10: calling get_solar_system_plot with its default argument value
(apod_body absent) raises an AttributeError instead of producing a plot,
because the highlight computation applies .lower() to the argument
unconditionally. -/
theorem solar_plot_none_raises :
    get_solar_system_plot none =
      Except.error (PyErr.attributeError ("NoneType object has no attribute lower")) := by
  rfl

/-- C9: two calls to the cached fetch with the same date argument inside
the one-hour window opened by the first call return field-identical
records: the second call returns exactly the record the first one
returned. -/
theorem cached_fetch_deterministic (oracle : Nat → Option String → RawApod)
    (σ : CacheState) (k : Option String) (t1 t2 : Nat)
    (h0 : σ k = none) (_h1 : t1 ≤ t2) (h2 : t2 < t1 + TTL) :
    (cached_fetch_apod oracle t2 k (cached_fetch_apod oracle t1 k σ).2).1 =
      (cached_fetch_apod oracle t1 k σ).1 := by
  simp [cached_fetch_apod, h0, cache_update, h2]

/-- C9 witness: a concrete pair of calls ten seconds apart on an empty
cache. -/
theorem cached_fetch_deterministic_witness :
    (cached_fetch_apod (fun _ _ => rawNone) 10 none
        (cached_fetch_apod (fun _ _ => rawNone) 0 none (fun _ => none)).2).1 =
      (cached_fetch_apod (fun _ _ => rawNone) 0 none (fun _ => none)).1 :=
  cached_fetch_deterministic (fun _ _ => rawNone) (fun _ => none) none 0 10
    rfl (by decide) (by decide)

/-- Helper: the modelled dateutil parse fails only with a ValueError,
never with an AttributeError. -/
theorem dateutilParse_no_attributeError (s : String) (m : String) :
    dateutilParse s ≠ Except.error (PyErr.attributeError m) := by
  unfold dateutilParse
  split
  · split
    · simp
    · simp
  · simp

/-- Restates the shape exactly as the claim words it, a digit being one
of the ASCII characters 0 through 9 (Char.isDigit) and nothing before or
after the ten characters: used only to exhibit inputs outside that shape
which the program nevertheless accepts. -/
def asciiLiteralShape (s : String) : Bool :=
  match s.data with
  | [y1, y2, y3, y4, '-', m1, m2, '-', d1, d2] =>
    y1.isDigit && y2.isDigit && y3.isDigit && y4.isDigit &&
    m1.isDigit && m2.isDigit && d1.isDigit && d2.isDigit
  | _ => false

/-- C4 counterexample: two non-empty strings outside the literal
ASCII YYYY-MM-DD shape that validate nevertheless accepts.  The first has
a trailing newline, which the Python dollar anchor matches before and
dateutil strips; the second writes the year in fullwidth digits, which
the Python class \d matches and dateutil values like ASCII digits. -/
theorem validate_literal_shape_cex :
    (("2020-01-01\n" ≠ "") ∧
      asciiLiteralShape "2020-01-01\n" = false ∧
      (validate_date (some ("2020-01-01\n")) ⟨2026, 10, 12⟩).1 = true) ∧
    (("２０２０-01-01" ≠ "") ∧
      asciiLiteralShape "２０２０-01-01" = false ∧
      (validate_date (some ("２０２０-01-01")) ⟨2026, 10, 12⟩).1 = true) :=
  ⟨⟨by decide, by decide, rfl⟩, ⟨by decide, by decide, rfl⟩⟩

/-- C4 amended: for every non-empty input string rejected by the Python
regex — which accepts the YYYY-MM-DD shape with any Unicode decimal
digits, optionally followed by a single trailing newline — validate
returns false. -/
theorem validate_rejects_nonmatching (s : String) (today : PyDate)
    (hne : s ≠ "") (h : pyRegexMatch s = false) :
    (validate_date (some s) today).1 = false := by
  simp [validate_date, hne, h]

/-- C4 amended witness: a shapeless string is rejected. -/
theorem validate_rejects_nonmatching_witness :
    (validate_date (some ("abc")) ⟨2026, 10, 12⟩).1 = false :=
  validate_rejects_nonmatching "abc" ⟨2026, 10, 12⟩ (by decide) (by decide)

/-- C5: for every string accepted by the format check, if it parses as a
real calendar date d then validate returns true exactly when d lies
between the mission start 1995-06-16 and today (the current date at call
time, an explicit parameter of the embedding), and if it fails to parse as
a real calendar date then validate returns false. -/
theorem validate_range (s : String) (today : PyDate)
    (h : pyRegexMatch s = true) :
    match dateutilParse s with
    | Except.ok d => ((validate_date (some s) today).1 = true ↔
        mission_start.key ≤ d.key ∧ d.key ≤ today.key)
    | Except.error _ => (validate_date (some s) today).1 = false := by
  have hne : s ≠ "" := by
    intro he
    subst he
    exact absurd h (by decide)
  cases hd : dateutilParse s with
  | error e => simp [validate_date, hne, h, hd]
  | ok d =>
    simp only [validate_date, hne, h, hd]
    by_cases h1 : d.key < mission_start.key
    · simp [h1, hne]
    · by_cases h2 : today.key < d.key
      · simp [h1, h2, hne]
      · simp [h1, h2, hne]
        omega

/-- C5 witness: an in-range real date is accepted. -/
theorem validate_range_witness :
    (validate_date (some ("2020-01-01")) ⟨2026, 10, 12⟩).1 = true :=
  (validate_range "2020-01-01" ⟨2026, 10, 12⟩ (by decide)).mpr (by decide)

/-- C3 counterexample: validate is not free of observable side effects:
on input 1990-01-01 it emits a warning message through the UI warning
channel (the st.warning call of code.py line 60). -/
theorem validate_not_pure_cex :
    (validate_date (some ("1990-01-01")) ⟨2026, 10, 12⟩).2 ≠ [] := by
  decide

/-- C3 amended: validate returns only a boolean result, but it is not
side-effect-free: it emits a UI warning exactly when the input passes the
format check and parses to a real calendar date lying before the mission
start or after today; on every other input it emits nothing. -/
theorem validate_warning_exact (dt : Option String) (today : PyDate) :
    (validate_date dt today).2 ≠ [] ↔
      (∃ s d, dt = some s ∧ s ≠ "" ∧ pyRegexMatch s = true ∧
        dateutilParse s = Except.ok d ∧
        (d.key < mission_start.key ∨ today.key < d.key)) := by
  cases dt with
  | none => simp [validate_date]
  | some s =>
    by_cases hs : s = ""
    · subst hs
      simp [validate_date]
    · by_cases hr : pyRegexMatch s = true
      · cases hd : dateutilParse s with
        | error e => simp [validate_date, hs, hr, hd]
        | ok d =>
          simp only [validate_date, hs, hr, hd]
          by_cases h1 : d.key < mission_start.key
          · simp [h1, hs, hr, hd, warn_early]
          · by_cases h2 : today.key < d.key
            · simp [h1, h2, hs, hr, hd, warn_future]
            · simp [h1, h2, hs, hr, hd]
      · have hr2 : pyRegexMatch s = false := by simpa using hr
        simp [validate_date, hs, hr2]

/-- C6: no exception escapes validate: the embedding that keeps the
exception channel visible always returns normally, with exactly the value
of the total embedding, because the only exception the body can raise is
the ValueError of the parse and the except clause catches it. -/
theorem validate_no_exception (dt : Option String) (today : PyDate) :
    validate_dateE dt today = Except.ok (validate_date dt today) := by
  cases dt with
  | none => rfl
  | some s =>
    by_cases hs : s = ""
    · subst hs
      rfl
    · by_cases hr : pyRegexMatch s = true
      · cases hd : dateutilParse s with
        | ok d =>
          simp [validate_dateE, validate_date, hs, hr, hd]
          split_ifs <;> rfl
        | error e =>
          cases e with
          | valueError m => simp [validate_dateE, validate_date, hs, hr, hd]
          | attributeError m => exact absurd hd (dateutilParse_no_attributeError s m)
      · have hr2 : pyRegexMatch s = false := by simpa using hr
        simp [validate_dateE, validate_date, hs, hr2]
